import Mathlib

/-!
Verification of the facti-ai KYC backend against its specification.

Shallow embedding notes:
* Python floats are modelled as exact rationals (`ℚ`); Python ints as `ℤ`/`ℕ`.
* Python dictionaries read with `.get(key)` / `.get(key, default)` are modelled
  as structures with `Option` fields; an absent key is `none` and reads use
  `Option.getD`.  Truthiness tests `if d.get(k):` on boolean-valued keys become
  `field = some true`.
* Timestamps (`datetime.utcnow()`, `time.time()`) are rational numbers of
  seconds; `timedelta(hours=1)` is `3600`, `timedelta(days=1)` is `86400`.
  The current UTC hour used by the time-anomaly check is passed as a `ℕ`.
* `sha256` of the device fingerprint string (`fraud_detector.py`,
  `_hash_device`) is modelled as the identity on the fingerprint string: the
  hash is only ever compared for membership in the blacklist set, which stores
  exactly the values produced by the same function, so a collision-free
  abstraction preserves all the behaviour that is observable here.
* The pixel-level GAN-fingerprint step `_check_gan_fingerprints` reads real
  media files and cannot be embedded; its outcome enters `analyze_correlation`
  as a parameter `gan : Option ℚ`: `some g` is the value it returned (the
  source clamps it to `[0,1]`; theorems take the bound as a hypothesis) and
  `none` is the case in which the step raised and the surrounding
  `try/except` suppressed the exception.
-/

/-! ## fraud_detector.py (`FraudDetector`) -/

/-- Device fingerprint data (`device_info` dict).  Boolean fields model the
truthiness of `device_info.get(k)`; an absent key is `false`.  `device_id` and
`ip_address` model `device_info.get(k, '')`. -/
structure DeviceInfo where
  using_vpn : Bool
  is_emulator : Bool
  is_rooted : Bool
  device_mismatch : Bool
  device_id : String
  ip_address : String

/-- The `face_match` sub-dict of `verification_data`. -/
structure FaceMatchQuality where
  «match» : Option Bool
  confidence : Option ℚ
  distance : Option ℚ

/-- The `liveness` sub-dict of `verification_data`. -/
structure LivenessQuality where
  is_live : Option Bool
  confidence : Option ℚ

/-- `verification_data`: `none` models an absent key, for which
`verification_data.get(k, {})` yields the empty dict. -/
structure VerificationData where
  face_match : Option FaceMatchQuality
  liveness : Option LivenessQuality

/-- `FraudDetector._check_attempt_frequency`.  `attempts` is the stored list
`self.attempt_history[user_id]` (created empty when absent) and `now` is
`datetime.utcnow()`.  Returns the score, the flags, and the list stored back
into `self.attempt_history[user_id]`.  The source counts the 1-hour and
24-hour windows over the stored list, then appends `now`, then prunes the
appended list to the 24-hour window. -/
def check_attempt_frequency (now : ℚ) (attempts : List ℚ) :
    ℤ × List String × List ℚ :=
  let recent_attempts := attempts.filter fun a => now - a < 3600
  let daily_attempts := attempts.filter fun a => now - a < 86400
  let score : ℤ :=
    (if recent_attempts.length ≥ 5 then 30 else 0) +
    (if daily_attempts.length ≥ 20 then 40 else 0)
  let flags : List String :=
    (if recent_attempts.length ≥ 5 then ["EXCESSIVE_ATTEMPTS_HOURLY"] else []) ++
    (if daily_attempts.length ≥ 20 then ["EXCESSIVE_ATTEMPTS_DAILY"] else [])
  let updated := (attempts ++ [now]).filter fun a => now - a < 86400
  (score, flags, updated)

/-- `FraudDetector._check_time_anomaly`; `hour` is `datetime.utcnow().hour`.
`self.suspicious_hours = [0, 1, 2, 3, 4, 5]`. -/
def check_time_anomaly (hour : ℕ) : ℤ × List String :=
  if hour ∈ [0, 1, 2, 3, 4, 5] then (10, ["SUSPICIOUS_TIME_OF_DAY"]) else (0, [])

/-- `FraudDetector._check_device_signals`. -/
def check_device_signals (device_info : DeviceInfo) : ℤ × List String :=
  let s : ℤ :=
    (if device_info.using_vpn then 15 else 0) +
    (if device_info.is_emulator then 25 else 0) +
    (if device_info.is_rooted then 20 else 0) +
    (if device_info.device_mismatch then 15 else 0)
  let f : List String :=
    (if device_info.using_vpn then ["VPN_DETECTED"] else []) ++
    (if device_info.is_emulator then ["EMULATOR_DETECTED"] else []) ++
    (if device_info.is_rooted then ["ROOTED_DEVICE"] else []) ++
    (if device_info.device_mismatch then ["DEVICE_MISMATCH"] else [])
  (s, f)

/-- `FraudDetector._check_verification_quality`. -/
def check_verification_quality (verification_data : VerificationData) :
    ℤ × List String :=
  let face_match := verification_data.face_match.getD ⟨none, none, none⟩
  let liveness := verification_data.liveness.getD ⟨none, none⟩
  let fp : ℤ × List String :=
    if ¬ face_match.«match» = some true then (30, ["FACE_MATCH_FAILED"])
    else if face_match.confidence.getD 1 < 1/2 then (20, ["LOW_FACE_CONFIDENCE"])
    else (0, [])
  let lp : ℤ × List String :=
    if ¬ liveness.is_live = some true then (40, ["LIVENESS_FAILED"])
    else if liveness.confidence.getD 1 < 3/10 then (25, ["LOW_LIVENESS_CONFIDENCE"])
    else (0, [])
  let dp : ℤ × List String :=
    if face_match.distance.getD 0 > 1/2 then (15, ["HIGH_FACE_DISTANCE"])
    else (0, [])
  (fp.1 + lp.1 + dp.1, fp.2 ++ lp.2 ++ dp.2)

/-- `FraudDetector._hash_device` (sha256 modelled as the identity on the
fingerprint string, see the header). -/
def hash_device (device_info : DeviceInfo) : String :=
  device_info.device_id ++ "-" ++ device_info.ip_address

/-- `FraudDetector._check_blacklist`; `blacklist` is `self.blacklist`. -/
def check_blacklist (user_id : String) (device_info : DeviceInfo)
    (blacklist : List String) : ℤ × List String :=
  let up : ℤ × List String :=
    if user_id ∈ blacklist then (100, ["USER_BLACKLISTED"]) else (0, [])
  let dp : ℤ × List String :=
    if hash_device device_info ∈ blacklist then (100, ["DEVICE_BLACKLISTED"])
    else (0, [])
  (up.1 + dp.1, up.2 ++ dp.2)

/-- The `details` sub-dict of the risk result. -/
structure RiskDetails where
  frequency_score : ℤ
  time_score : ℤ
  device_score : ℤ
  quality_score : ℤ
  blacklist_score : ℤ

/-- The dict returned by `FraudDetector.calculate_risk_score`. -/
structure RiskResult where
  risk_score : ℤ
  risk_level : String
  flags : List String
  recommendation : String
  details : RiskDetails

/-- `FraudDetector.calculate_risk_score`.  The detector state it reads
(`self.blacklist`, `self.attempt_history[user_id]`) and the ambient time
(`now` in seconds, its UTC `hour`) are passed explicitly; the second component
of the result is the updated `self.attempt_history[user_id]`. -/
def calculate_risk_score (user_id : String) (device_info : DeviceInfo)
    (verification_data : VerificationData) (blacklist : List String)
    (attempts : List ℚ) (now : ℚ) (hour : ℕ) : RiskResult × List ℚ :=
  let fr := check_attempt_frequency now attempts
  let tr := check_time_anomaly hour
  let dr := check_device_signals device_info
  let qr := check_verification_quality verification_data
  let br := check_blacklist user_id device_info blacklist
  let score := fr.1 + tr.1 + dr.1 + qr.1 + br.1
  let flags := fr.2.1 ++ tr.2 ++ dr.2 ++ qr.2 ++ br.2
  let lr : String × String :=
    if score ≥ 80 then ("CRITICAL", "REJECT")
    else if score ≥ 60 then ("HIGH", "REVIEW")
    else if score ≥ 40 then ("MEDIUM", "REVIEW")
    else ("LOW", "APPROVE")
  ({ risk_score := min score 100
     risk_level := lr.1
     flags := flags
     recommendation := lr.2
     details := ⟨fr.1, tr.1, dr.1, qr.1, br.1⟩ }, fr.2.2)

/-! ## Python `round(x, 4)` -/

/-- Python `round` on a real value: round half to even. -/
def roundHalfToEven (x : ℚ) : ℤ :=
  let n := ⌊x⌋
  let frac := x - n
  if frac < 1/2 then n
  else if 1/2 < frac then n + 1
  else if n % 2 = 0 then n else n + 1

/-- Python `round(x, 4)`. -/
def pyRound4 (x : ℚ) : ℚ := (roundHalfToEven (x * 10000) : ℚ) / 10000

/-! ## cross_artifact_analyzer.py (`CrossArtifactAnalyzer`) -/

/-- `deepfake_result` dict. -/
structure DeepfakeDict where
  is_real : Option Bool
  confidence : Option ℚ

/-- `face_match_result` dict. -/
structure FaceMatchDict where
  «match» : Option Bool
  similarity : Option ℚ

/-- `document_result` dict. -/
structure DocumentDict where
  is_genuine : Option Bool
  confidence : Option ℚ

/-- The `analysis_details` sub-dict of the correlation result. -/
structure AnalysisDetails where
  all_fake_pattern : Bool
  high_confidence_fake : Bool
  impossible_combination : Bool

/-- The dict returned by `CrossArtifactAnalyzer.analyze_correlation`.  The
`suspicious_patterns` entries are the source's message strings with the
interpolated numeric value of the pattern-5 message omitted. -/
structure CorrelationResult where
  prokyc_signature_detected : Bool
  correlation_score : ℚ
  risk_level : String
  suspicious_patterns : List String
  analysis_details : AnalysisDetails

/-- The `correlation_score` accumulated by
`CrossArtifactAnalyzer.analyze_correlation` just after the `min(1.0, _)`
clamp and before `round(_, 4)`.  `gan` is the outcome of the
`_check_gan_fingerprints` step (see the header). -/
def rawCorrelationScore (deepfake_result : DeepfakeDict)
    (face_match_result : FaceMatchDict) (document_result : DocumentDict)
    (gan : Option ℚ) : ℚ :=
  let all_fake := deepfake_result.is_real = some false ∧
    document_result.is_genuine = some false ∧
    face_match_result.«match» = some false
  let high_face_match := face_match_result.similarity.getD 0 > 9/10
  let video_fake := deepfake_result.is_real = some false
  let doc_fake := document_result.is_genuine = some false
  let video_confidence := deepfake_result.confidence.getD 0
  let doc_confidence := document_result.confidence.getD 0
  let face_confidence := face_match_result.similarity.getD 0
  let s : ℚ :=
    (if all_fake then 2/5 else 0) +
    (if high_face_match ∧ video_fake ∧ doc_fake then 1/2 else 0) +
    (if video_confidence > 19/20 ∧ doc_confidence > 19/20 ∧
        face_confidence > 19/20 ∧
        (¬ deepfake_result.is_real = some true ∨
         ¬ document_result.is_genuine = some true) then 3/10 else 0) +
    (match gan with
     | none => 0
     | some g => g * (3/10))
  min 1 s

/-- `CrossArtifactAnalyzer.analyze_correlation`. -/
def analyze_correlation (deepfake_result : DeepfakeDict)
    (face_match_result : FaceMatchDict) (document_result : DocumentDict)
    (gan : Option ℚ) : CorrelationResult :=
  let all_fake := deepfake_result.is_real = some false ∧
    document_result.is_genuine = some false ∧
    face_match_result.«match» = some false
  let high_face_match := face_match_result.similarity.getD 0 > 9/10
  let video_fake := deepfake_result.is_real = some false
  let doc_fake := document_result.is_genuine = some false
  let video_confidence := deepfake_result.confidence.getD 0
  let doc_confidence := document_result.confidence.getD 0
  let face_confidence := face_match_result.similarity.getD 0
  let correlation_score :=
    rawCorrelationScore deepfake_result face_match_result document_result gan
  let patterns : List String :=
    (if all_fake then ["All three inputs flagged as fraudulent"] else []) ++
    (if high_face_match ∧ video_fake ∧ doc_fake then
      ["High face similarity with fraudulent video and document (ProKYC indicator)"]
     else []) ++
    (if video_confidence > 19/20 ∧ doc_confidence > 19/20 ∧
        face_confidence > 19/20 ∧
        (¬ deepfake_result.is_real = some true ∨
         ¬ document_result.is_genuine = some true) then
      ["Unnaturally high confidence across all fake artifacts"]
     else []) ++
    (match gan with
     | none => []
     | some g =>
       if g > 7/10 then ["Similar GAN artifacts detected across inputs"] else [])
  let rp : String × Bool :=
    if correlation_score ≥ 3/4 then ("CRITICAL", true)
    else if correlation_score ≥ 1/2 then ("HIGH", true)
    else if correlation_score ≥ 3/10 then ("MEDIUM", false)
    else ("LOW", false)
  { prokyc_signature_detected := rp.2
    correlation_score := pyRound4 correlation_score
    risk_level := rp.1
    suspicious_patterns := patterns
    analysis_details :=
      { all_fake_pattern := decide all_fake
        high_confidence_fake :=
          decide (video_confidence > 19/20 ∧ doc_confidence > 19/20)
        impossible_combination :=
          decide (high_face_match ∧ video_fake ∧ doc_fake) } }

/-! ## kyc_complete.py (`calculate_overall_verdict`) -/

/-- `correlation_result` dict as read by `calculate_overall_verdict`. -/
structure CorrelationDict where
  prokyc_signature_detected : Option Bool
  correlation_score : Option ℚ
  risk_level : Option String

/-- The dict returned by `calculate_overall_verdict`.  The interpolated
`risk_level` of the high-correlation reason is kept. -/
structure VerdictResult where
  verdict : String
  confidence : ℚ
  risk_score : ℚ
  pass? : Bool
  reason : String

/-- `calculate_overall_verdict` of `kyc_complete.py`. -/
def calculate_overall_verdict (deepfake_result : DeepfakeDict)
    (face_match_result : FaceMatchDict) (document_result : DocumentDict)
    (correlation_result : CorrelationDict) : VerdictResult :=
  let video_real := deepfake_result.is_real.getD false
  let video_confidence := deepfake_result.confidence.getD 0
  let face_match := face_match_result.«match».getD false
  let face_similarity := face_match_result.similarity.getD 0
  let doc_genuine := document_result.is_genuine.getD false
  let doc_confidence := document_result.confidence.getD 0
  let prokyc_detected := correlation_result.prokyc_signature_detected.getD false
  let correlation_score := correlation_result.correlation_score.getD 0
  let risk_level := correlation_result.risk_level.getD "LOW"
  if prokyc_detected then
    ⟨"FAIL", 19/20, correlation_score, false, "ProKYC signature detected"⟩
  else if ¬ video_real ∧ video_confidence > 9/10 then
    ⟨"FAIL", video_confidence, 1 - video_confidence, false,
      "Deepfake video detected"⟩
  else if ¬ doc_genuine ∧ doc_confidence > 9/10 then
    ⟨"FAIL", doc_confidence, 1 - doc_confidence, false,
      "Fraudulent document detected"⟩
  else if ¬ face_match then
    ⟨"FAIL", 1 - face_similarity, 1 - face_similarity, false,
      "Face does not match ID"⟩
  else if risk_level = "HIGH" ∨ correlation_score > 1/2 then
    ⟨"SUSPICIOUS", 7/10, correlation_score, false,
      "High correlation (risk: " ++ risk_level ++ ")"⟩
  else if video_confidence < 7/10 ∨ doc_confidence < 7/10 ∨
      face_similarity < 7/10 then
    ⟨"SUSPICIOUS", min video_confidence (min doc_confidence face_similarity),
      1 - min video_confidence (min doc_confidence face_similarity), false,
      "Low confidence in verification"⟩
  else if video_real ∧ doc_genuine ∧ face_match then
    ⟨"PASS", (video_confidence + doc_confidence + face_similarity) / 3,
      1 - (video_confidence + doc_confidence + face_similarity) / 3, true,
      "All checks passed"⟩
  else
    ⟨"SUSPICIOUS", 1/2, 1/2, false, "Inconclusive results"⟩

/-! ## kyc_ensemble.py (`KYCEnsemble`) -/

/-- The document-verifier result as read by `_calculate_overall_score`
(only `quality_score` is read there). -/
structure DocResultDict where
  quality_score : Option ℚ

/-- The liveness result as read by `_calculate_overall_score`. -/
structure LivenessDict where
  is_live : Option Bool
  score : Option ℚ

/-- The fraud result as read by `_calculate_overall_score` and
`_make_decision`. -/
structure FraudDict where
  risk_score : Option ℚ
  risk_level : Option String

/-- `KYCEnsemble._calculate_overall_score`, with
`self.weights = {document: 0.15, face_match: 0.35, liveness: 0.30,
fraud: 0.20}`. -/
def calculate_overall_score (doc_result : DocResultDict)
    (face_result : FaceMatchDict) (liveness_result : LivenessDict)
    (fraud_result : FraudDict) : ℚ :=
  let doc_score := doc_result.quality_score.getD 0
  let face_score : ℚ :=
    if face_result.«match» = some true then face_result.similarity.getD 0 * 100
    else 0
  let liveness_score : ℚ :=
    if liveness_result.is_live = some true then
      liveness_result.score.getD (1/2) * 100
    else 0
  let fraud_score := 100 - fraud_result.risk_score.getD 50
  doc_score * (3/20) + face_score * (7/20) + liveness_score * (3/10) +
    fraud_score * (1/5)

/-- The `critical_flags` list of `KYCEnsemble._make_decision`. -/
def critical_flags : List String :=
  ["FACE_MATCH_FAILED", "LIVENESS_FAILED", "USER_BLACKLISTED",
   "DEVICE_BLACKLISTED"]

/-- `KYCEnsemble._make_decision` (verdict, recommendation), with
`pass_threshold = 75`, `fail_threshold = 40`. -/
def make_decision (overall_score : ℚ) (fraud_result : FraudDict)
    (flags : List String) : String × String :=
  if critical_flags.any fun f => flags.contains f then
    ("FAIL", "Reject - Critical verification failure")
  else if fraud_result.risk_level = some "CRITICAL" then
    ("FAIL", "Reject - Critical fraud risk detected")
  else if overall_score ≥ 75 then
    if fraud_result.risk_level = some "HIGH" ∨
        fraud_result.risk_level = some "MEDIUM" then
      ("REVIEW", "Manual review - High fraud risk despite good verification")
    else ("PASS", "Approve - All checks passed")
  else if overall_score < 40 then
    ("FAIL", "Reject - Verification score too low")
  else ("REVIEW", "Manual review - Borderline verification score")

/-! ## rate_limiter.py (`TokenBucket`, `RateLimiter`) -/

/-- `TokenBucket` state. -/
structure TokenBucket where
  capacity : ℚ
  refill_rate : ℚ
  tokens : ℚ
  last_refill : ℚ

/-- `TokenBucket.consume`; `now` is `time.time()`. -/
def TokenBucket.consume (tb : TokenBucket) (n : ℚ) (now : ℚ) :
    Bool × TokenBucket :=
  let elapsed := now - tb.last_refill
  let refilled := min tb.capacity (tb.tokens + elapsed * tb.refill_rate)
  if refilled ≥ n then
    (true, { tb with tokens := refilled - n, last_refill := now })
  else
    (false, { tb with tokens := refilled, last_refill := now })

/-- `TokenBucket.__init__` (the bucket starts full). -/
def mkBucket (capacity refill_rate t0 : ℚ) : TokenBucket :=
  ⟨capacity, refill_rate, capacity, t0⟩

/-- Python `int()` truncation toward zero on a rational. -/
def pyInt (x : ℚ) : ℤ := if x < 0 then -⌊-x⌋ else ⌊x⌋

/-- `RateLimiter.check_rate_limit` for one client's bucket (the limiter is a
per-key map of independent buckets).  Returns the admit flag, the
"retry after N seconds" hint of the rejection message (`60 - int(tokens)`,
`0` when admitted: the success message is empty), and the updated bucket. -/
def check_rate_limit (tb : TokenBucket) (now : ℚ) : Bool × ℤ × TokenBucket :=
  let r := tb.consume 1 now
  if r.1 then (true, 0, r.2)
  else (false, 60 - pyInt r.2.tokens, r.2)

/-- Feed a sequence of requests (their `time.time()` values) through one
bucket, collecting the admit flags. -/
def process_requests (tb : TokenBucket) : List ℚ → List Bool × TokenBucket
  | [] => ([], tb)
  | t :: rest =>
    let r := tb.consume 1 t
    let rec' := process_requests r.2 rest
    (r.1 :: rec'.1, rec'.2)

/-- The `recordAndCount` contract exactly as the spec words it (append the
current timestamp first, then prune to 24 hours, then compute both window
counts over the post-prune list, so the current attempt is included in both
counts).  Written only to compare against the source's
`check_attempt_frequency`. -/
def recordAndCountSpec (now : ℚ) (attempts : List ℚ) :
    ℤ × List String × List ℚ :=
  let stored := (attempts ++ [now]).filter fun a => now - a < 86400
  let recent := stored.filter fun a => now - a < 3600
  let score : ℤ :=
    (if recent.length ≥ 5 then 30 else 0) +
    (if stored.length ≥ 20 then 40 else 0)
  let flags : List String :=
    (if recent.length ≥ 5 then ["EXCESSIVE_ATTEMPTS_HOURLY"] else []) ++
    (if stored.length ≥ 20 then ["EXCESSIVE_ATTEMPTS_DAILY"] else [])
  (score, flags, stored)

/-- Repeated `TokenBucket.consume(1)` calls at one fixed instant `now`
(the "no time passing" request sequence). -/
def consumeSeq (now : ℚ) (tb : TokenBucket) : ℕ → TokenBucket
  | 0 => tb
  | k + 1 => ((consumeSeq now tb k).consume 1 now).2

/-! ## Helper lemmas -/

lemma check_attempt_frequency_score_nonneg (now : ℚ) (attempts : List ℚ) :
    0 ≤ (check_attempt_frequency now attempts).1 := by
  simp only [check_attempt_frequency]
  split_ifs <;> norm_num

lemma check_time_anomaly_score_nonneg (hour : ℕ) :
    0 ≤ (check_time_anomaly hour).1 := by
  simp only [check_time_anomaly]
  split_ifs <;> norm_num

lemma check_device_signals_score_nonneg (device_info : DeviceInfo) :
    0 ≤ (check_device_signals device_info).1 := by
  simp only [check_device_signals]
  split_ifs <;> norm_num

lemma check_verification_quality_score_nonneg (vd : VerificationData) :
    0 ≤ (check_verification_quality vd).1 := by
  simp only [check_verification_quality]
  split_ifs <;> norm_num

lemma check_blacklist_score_nonneg (user_id : String) (device_info : DeviceInfo)
    (blacklist : List String) :
    0 ≤ (check_blacklist user_id device_info blacklist).1 := by
  simp only [check_blacklist]
  split_ifs <;> norm_num

lemma check_blacklist_of_mem (user_id : String) (device_info : DeviceInfo)
    (blacklist : List String) (h : user_id ∈ blacklist) :
    100 ≤ (check_blacklist user_id device_info blacklist).1 ∧
      "USER_BLACKLISTED" ∈ (check_blacklist user_id device_info blacklist).2 := by
  simp only [check_blacklist, if_pos h]
  split_ifs <;> simp

/-- Shared: the risk score of `calculate_risk_score` is always in `[0, 100]`. -/
lemma calculate_risk_score_bounds (user_id : String) (device_info : DeviceInfo)
    (verification_data : VerificationData) (blacklist : List String)
    (attempts : List ℚ) (now : ℚ) (hour : ℕ) :
    0 ≤ (calculate_risk_score user_id device_info verification_data blacklist
        attempts now hour).1.risk_score ∧
      (calculate_risk_score user_id device_info verification_data blacklist
        attempts now hour).1.risk_score ≤ 100 := by
  have hf := check_attempt_frequency_score_nonneg now attempts
  have ht := check_time_anomaly_score_nonneg hour
  have hd := check_device_signals_score_nonneg device_info
  have hq := check_verification_quality_score_nonneg verification_data
  have hb := check_blacklist_score_nonneg user_id device_info blacklist
  simp only [calculate_risk_score]
  constructor
  · exact le_min (by linarith) (by norm_num)
  · exact min_le_right _ _

/-! ## C1 -/

/-- C1: for every input, `FraudDetector.calculate_risk_score` returns a
`risk_score` with `0 ≤ risk_score ≤ 100`; and whenever `user_id` is in the
blacklist, the score is exactly `100`, the recommendation is `REJECT` and the
flag `USER_BLACKLISTED` is in the flags list, regardless of all other
inputs. -/
theorem risk_score_bounds_and_blacklist_rejects (user_id : String)
    (device_info : DeviceInfo) (verification_data : VerificationData)
    (blacklist : List String) (attempts : List ℚ) (now : ℚ) (hour : ℕ) :
    (0 ≤ (calculate_risk_score user_id device_info verification_data blacklist
        attempts now hour).1.risk_score ∧
      (calculate_risk_score user_id device_info verification_data blacklist
        attempts now hour).1.risk_score ≤ 100) ∧
    (user_id ∈ blacklist →
      (calculate_risk_score user_id device_info verification_data blacklist
        attempts now hour).1.risk_score = 100 ∧
      (calculate_risk_score user_id device_info verification_data blacklist
        attempts now hour).1.recommendation = "REJECT" ∧
      "USER_BLACKLISTED" ∈ (calculate_risk_score user_id device_info
        verification_data blacklist attempts now hour).1.flags) := by
  refine ⟨calculate_risk_score_bounds user_id device_info verification_data
    blacklist attempts now hour, fun h => ?_⟩
  have hf := check_attempt_frequency_score_nonneg now attempts
  have ht := check_time_anomaly_score_nonneg hour
  have hd := check_device_signals_score_nonneg device_info
  have hq := check_verification_quality_score_nonneg verification_data
  have hb := check_blacklist_of_mem user_id device_info blacklist h
  simp only [calculate_risk_score]
  have hsum : (100:ℤ) ≤ (check_attempt_frequency now attempts).1 +
      (check_time_anomaly hour).1 + (check_device_signals device_info).1 +
      (check_verification_quality verification_data).1 +
      (check_blacklist user_id device_info blacklist).1 := by
    linarith [hb.1]
  refine ⟨min_eq_right hsum, ?_, ?_⟩
  · rw [if_pos (by linarith : (check_attempt_frequency now attempts).1 +
      (check_time_anomaly hour).1 + (check_device_signals device_info).1 +
      (check_verification_quality verification_data).1 +
      (check_blacklist user_id device_info blacklist).1 ≥ 80)]
  · simp only [List.mem_append]
    exact Or.inr hb.2

/-- C1 witness: a concrete blacklisted user. -/
theorem risk_score_bounds_and_blacklist_rejects_witness :
    "mallory" ∈ ["mallory"] ∧
    (calculate_risk_score "mallory" ⟨false, false, false, false, "d", "ip"⟩
        ⟨none, none⟩ ["mallory"] [] 0 12).1.risk_score = 100 ∧
    (calculate_risk_score "mallory" ⟨false, false, false, false, "d", "ip"⟩
        ⟨none, none⟩ ["mallory"] [] 0 12).1.recommendation = "REJECT" ∧
    "USER_BLACKLISTED" ∈ (calculate_risk_score "mallory"
        ⟨false, false, false, false, "d", "ip"⟩
        ⟨none, none⟩ ["mallory"] [] 0 12).1.flags := by
  refine ⟨by decide, ?_⟩
  exact (risk_score_bounds_and_blacklist_rejects "mallory"
    ⟨false, false, false, false, "d", "ip"⟩ ⟨none, none⟩ ["mallory"] [] 0 12).2
    (by decide)

/-! ## C2 -/

/-- C2: whenever the correlation result read by `calculate_overall_verdict`
has `prokyc_signature_detected == true`, the verdict is `FAIL` with reason
"ProKYC signature detected", regardless of every other signal. -/
theorem verdict_prokyc_always_fail (deepfake_result : DeepfakeDict)
    (face_match_result : FaceMatchDict) (document_result : DocumentDict)
    (correlation_result : CorrelationDict)
    (h : correlation_result.prokyc_signature_detected = some true) :
    (calculate_overall_verdict deepfake_result face_match_result
        document_result correlation_result).verdict = "FAIL" ∧
    (calculate_overall_verdict deepfake_result face_match_result
        document_result correlation_result).reason =
      "ProKYC signature detected" := by
  constructor <;> simp [calculate_overall_verdict, h]

/-- C2 witness: all three classifiers positive with high confidence, the
correlation result forced to CRITICAL. -/
theorem verdict_prokyc_always_fail_witness :
    (calculate_overall_verdict ⟨some true, some (99/100)⟩
        ⟨some true, some (99/100)⟩ ⟨some true, some (99/100)⟩
        ⟨some true, some (9/10), some "CRITICAL"⟩).verdict = "FAIL" ∧
    (calculate_overall_verdict ⟨some true, some (99/100)⟩
        ⟨some true, some (99/100)⟩ ⟨some true, some (99/100)⟩
        ⟨some true, some (9/10), some "CRITICAL"⟩).reason =
      "ProKYC signature detected" :=
  verdict_prokyc_always_fail ⟨some true, some (99/100)⟩
    ⟨some true, some (99/100)⟩ ⟨some true, some (99/100)⟩
    ⟨some true, some (9/10), some "CRITICAL"⟩ rfl

/-! ## Rounding and correlation-score helper lemmas -/

lemma floor_le_roundHalfToEven (x : ℚ) : ⌊x⌋ ≤ roundHalfToEven x := by
  simp only [roundHalfToEven]
  split_ifs <;> omega

lemma roundHalfToEven_le_ceil (x : ℚ) : roundHalfToEven x ≤ ⌈x⌉ := by
  have hfc := Int.floor_le_ceil x
  have hfl := Int.fract_nonneg x
  simp only [roundHalfToEven]
  split_ifs with h1 h2 h3
  · exact hfc
  · have hx : (⌊x⌋ : ℚ) < x := by linarith
    exact Int.add_one_le_iff.mpr (Int.lt_ceil.mpr hx)
  · omega
  · have hx : (⌊x⌋ : ℚ) < x := by
      push_neg at h1
      linarith
    exact Int.add_one_le_iff.mpr (Int.lt_ceil.mpr hx)

lemma pyRound4_nonneg (x : ℚ) (hx : 0 ≤ x) : 0 ≤ pyRound4 x := by
  have h1 : (0:ℤ) ≤ ⌊x * 10000⌋ := Int.floor_nonneg.mpr (by linarith)
  have h2 := floor_le_roundHalfToEven (x * 10000)
  have : (0:ℚ) ≤ (roundHalfToEven (x * 10000) : ℚ) := by exact_mod_cast le_trans h1 h2
  simp only [pyRound4]
  positivity

lemma pyRound4_le_one (x : ℚ) (hx : x ≤ 1) : pyRound4 x ≤ 1 := by
  have h1 : ⌈x * 10000⌉ ≤ 10000 := Int.ceil_le.mpr (by push_cast; linarith)
  have h2 := roundHalfToEven_le_ceil (x * 10000)
  have h3 : (roundHalfToEven (x * 10000) : ℚ) ≤ 10000 := by
    exact_mod_cast le_trans h2 h1
  simp only [pyRound4]
  linarith

lemma pyRound4_le_half (x : ℚ) (hx : x < 1/2) : pyRound4 x ≤ 1/2 := by
  have h1 : ⌈x * 10000⌉ ≤ 5000 := Int.ceil_le.mpr (by push_cast; linarith)
  have h2 := roundHalfToEven_le_ceil (x * 10000)
  have h3 : (roundHalfToEven (x * 10000) : ℚ) ≤ 5000 := by
    exact_mod_cast le_trans h2 h1
  simp only [pyRound4]
  linarith

lemma pyRound4_ge_half (x : ℚ) (hx : 1/2 ≤ x) : 1/2 ≤ pyRound4 x := by
  have h1 : (5000:ℤ) ≤ ⌊x * 10000⌋ := Int.le_floor.mpr (by push_cast; linarith)
  have h2 := floor_le_roundHalfToEven (x * 10000)
  have h3 : (5000:ℚ) ≤ (roundHalfToEven (x * 10000) : ℚ) := by
    exact_mod_cast le_trans h1 h2
  simp only [pyRound4]
  linarith

lemma rawCorrelationScore_nonneg (d : DeepfakeDict) (f : FaceMatchDict)
    (doc : DocumentDict) (gan : Option ℚ) (hg : ∀ g ∈ gan, 0 ≤ g) :
    0 ≤ rawCorrelationScore d f doc gan := by
  simp only [rawCorrelationScore]
  refine le_min (by norm_num) ?_
  have hgterm : 0 ≤ (match gan with
      | none => (0:ℚ)
      | some g => g * (3/10)) := by
    cases gan with
    | none => simp
    | some g =>
      have := hg g rfl
      simp only
      positivity
  split_ifs <;> linarith

lemma rawCorrelationScore_le_one (d : DeepfakeDict) (f : FaceMatchDict)
    (doc : DocumentDict) (gan : Option ℚ) :
    rawCorrelationScore d f doc gan ≤ 1 := by
  simp only [rawCorrelationScore]
  exact min_le_left _ _

lemma analyze_correlation_score_eq (d : DeepfakeDict) (f : FaceMatchDict)
    (doc : DocumentDict) (gan : Option ℚ) :
    (analyze_correlation d f doc gan).correlation_score =
      pyRound4 (rawCorrelationScore d f doc gan) := rfl

lemma analyze_correlation_prokyc_iff (d : DeepfakeDict) (f : FaceMatchDict)
    (doc : DocumentDict) (gan : Option ℚ) :
    (analyze_correlation d f doc gan).prokyc_signature_detected = true ↔
      1/2 ≤ rawCorrelationScore d f doc gan := by
  simp only [analyze_correlation]
  split_ifs with h1 h2 h3
  · exact ⟨fun _ => le_trans (by norm_num) h1, fun _ => rfl⟩
  · exact ⟨fun _ => h2, fun _ => rfl⟩
  · exact ⟨fun hc => by simp at hc, fun hle => absurd hle h2⟩
  · exact ⟨fun hc => by simp at hc, fun hle => absurd hle h2⟩

lemma analyze_correlation_risk_cases (d : DeepfakeDict) (f : FaceMatchDict)
    (doc : DocumentDict) (gan : Option ℚ) :
    ((analyze_correlation d f doc gan).prokyc_signature_detected = true ↔
      ((analyze_correlation d f doc gan).risk_level = "HIGH" ∨
       (analyze_correlation d f doc gan).risk_level = "CRITICAL")) := by
  simp only [analyze_correlation]
  split_ifs <;> simp

/-! ## C3 -/

/-- C3 counterexample: with pattern 3 firing (+0.3) and a GAN-fingerprint
correlation of 0.6666 (+0.19998), the accumulated score is 0.49998, so
`prokyc_signature_detected` is false, yet the returned `correlation_score`,
`round(0.49998, 4) = 0.5`, satisfies `correlation_score >= 0.50`: the claimed
"if and only if" fails for the returned score. -/
theorem analyze_correlation_iff_counterexample :
    ¬ ((analyze_correlation ⟨some false, some (24/25)⟩
          ⟨some true, some (24/25)⟩ ⟨some true, some (24/25)⟩
          (some (3333/5000))).prokyc_signature_detected = true ↔
        1/2 ≤ (analyze_correlation ⟨some false, some (24/25)⟩
          ⟨some true, some (24/25)⟩ ⟨some true, some (24/25)⟩
          (some (3333/5000))).correlation_score) := by
  have hraw : rawCorrelationScore ⟨some false, some (24/25)⟩
      ⟨some true, some (24/25)⟩ ⟨some true, some (24/25)⟩
      (some (3333/5000)) = 24999/50000 := by
    norm_num [rawCorrelationScore, min_def]
  have hp : (analyze_correlation ⟨some false, some (24/25)⟩
      ⟨some true, some (24/25)⟩ ⟨some true, some (24/25)⟩
      (some (3333/5000))).prokyc_signature_detected = false := by
    simp only [analyze_correlation, hraw]
    norm_num
  have hfl : (⌊(24999/50000 : ℚ) * 10000⌋ : ℤ) = 4999 := by
    rw [Int.floor_eq_iff]
    norm_num
  have hs : (analyze_correlation ⟨some false, some (24/25)⟩
      ⟨some true, some (24/25)⟩ ⟨some true, some (24/25)⟩
      (some (3333/5000))).correlation_score = 1/2 := by
    rw [analyze_correlation_score_eq, hraw]
    simp only [pyRound4, roundHalfToEven, hfl]
    norm_num
  intro hiff
  rw [hp, hs] at hiff
  exact absurd (hiff.mpr (by norm_num)) (by simp)

/-- C3 (amended): the returned `correlation_score` always lies in `[0, 1]`;
`prokyc_signature_detected` is true iff the pre-rounding correlation score is
`>= 0.50`; and `prokyc_signature_detected = true` still implies that the
returned (rounded) score is `>= 0.50` — only the converse can fail, because
rounding to 4 decimal places can lift a raw score just below 0.50 up to
0.50. -/
theorem analyze_correlation_bounds_and_prokyc (d : DeepfakeDict)
    (f : FaceMatchDict) (doc : DocumentDict) (gan : Option ℚ)
    (hg : ∀ g ∈ gan, 0 ≤ g) :
    (0 ≤ (analyze_correlation d f doc gan).correlation_score ∧
      (analyze_correlation d f doc gan).correlation_score ≤ 1) ∧
    ((analyze_correlation d f doc gan).prokyc_signature_detected = true ↔
      1/2 ≤ rawCorrelationScore d f doc gan) ∧
    ((analyze_correlation d f doc gan).prokyc_signature_detected = true →
      1/2 ≤ (analyze_correlation d f doc gan).correlation_score) := by
  have hlo := rawCorrelationScore_nonneg d f doc gan hg
  have hhi := rawCorrelationScore_le_one d f doc gan
  have hiff := analyze_correlation_prokyc_iff d f doc gan
  refine ⟨⟨?_, ?_⟩, hiff, fun hp => ?_⟩
  · rw [analyze_correlation_score_eq]
    exact pyRound4_nonneg _ hlo
  · rw [analyze_correlation_score_eq]
    exact pyRound4_le_one _ hhi
  · rw [analyze_correlation_score_eq]
    exact pyRound4_ge_half _ (hiff.mp hp)

/-- C3 witness. -/
theorem analyze_correlation_bounds_and_prokyc_witness :
    (0 ≤ (analyze_correlation ⟨some false, some 1⟩ ⟨some true, some (19/20)⟩
        ⟨some false, some 1⟩ (some (1/2))).correlation_score ∧
      (analyze_correlation ⟨some false, some 1⟩ ⟨some true, some (19/20)⟩
        ⟨some false, some 1⟩ (some (1/2))).correlation_score ≤ 1) ∧
    ((analyze_correlation ⟨some false, some 1⟩ ⟨some true, some (19/20)⟩
        ⟨some false, some 1⟩ (some (1/2))).prokyc_signature_detected = true ↔
      1/2 ≤ rawCorrelationScore ⟨some false, some 1⟩ ⟨some true, some (19/20)⟩
        ⟨some false, some 1⟩ (some (1/2))) ∧
    ((analyze_correlation ⟨some false, some 1⟩ ⟨some true, some (19/20)⟩
        ⟨some false, some 1⟩ (some (1/2))).prokyc_signature_detected = true →
      1/2 ≤ (analyze_correlation ⟨some false, some 1⟩ ⟨some true, some (19/20)⟩
        ⟨some false, some 1⟩ (some (1/2))).correlation_score) :=
  analyze_correlation_bounds_and_prokyc ⟨some false, some 1⟩
    ⟨some true, some (19/20)⟩ ⟨some false, some 1⟩ (some (1/2))
    (fun g hgg => by
      rw [Option.mem_def, Option.some_inj] at hgg
      rw [← hgg]
      norm_num)

/-! ## C10 -/

/-- C10: for every result of `analyze_correlation`,
`prokyc_signature_detected` is true exactly when `risk_level` is HIGH or
CRITICAL; and when such a result is the correlation input of
`calculate_overall_verdict`, the SUSPICIOUS branch guarded by
`risk_level == 'HIGH' or correlation_score > 0.50` is unreachable: whenever
that guard would hold, the earlier ProKYC branch fires and the function
returns FAIL with reason "ProKYC signature detected". -/
theorem analyzer_suspicious_branch_unreachable (d : DeepfakeDict)
    (f : FaceMatchDict) (doc : DocumentDict) (gan : Option ℚ)
    (d' : DeepfakeDict) (f' : FaceMatchDict) (doc' : DocumentDict) :
    ((analyze_correlation d f doc gan).prokyc_signature_detected = true ↔
      ((analyze_correlation d f doc gan).risk_level = "HIGH" ∨
       (analyze_correlation d f doc gan).risk_level = "CRITICAL")) ∧
    (((analyze_correlation d f doc gan).risk_level = "HIGH" ∨
        (analyze_correlation d f doc gan).correlation_score > 1/2) →
      (calculate_overall_verdict d' f' doc'
        ⟨some (analyze_correlation d f doc gan).prokyc_signature_detected,
         some (analyze_correlation d f doc gan).correlation_score,
         some (analyze_correlation d f doc gan).risk_level⟩).verdict = "FAIL" ∧
      (calculate_overall_verdict d' f' doc'
        ⟨some (analyze_correlation d f doc gan).prokyc_signature_detected,
         some (analyze_correlation d f doc gan).correlation_score,
         some (analyze_correlation d f doc gan).risk_level⟩).reason =
        "ProKYC signature detected") := by
  refine ⟨analyze_correlation_risk_cases d f doc gan, fun hguard => ?_⟩
  have hp : (analyze_correlation d f doc gan).prokyc_signature_detected = true := by
    rcases hguard with hr | hs
    · exact (analyze_correlation_risk_cases d f doc gan).mpr (Or.inl hr)
    · by_contra hfalse
      have hraw : ¬ (1/2 ≤ rawCorrelationScore d f doc gan) := fun hc =>
        hfalse ((analyze_correlation_prokyc_iff d f doc gan).mpr hc)
      have hlt : rawCorrelationScore d f doc gan < 1/2 := lt_of_not_le hraw
      have := pyRound4_le_half _ hlt
      rw [← analyze_correlation_score_eq] at this
      linarith
  constructor <;> simp [calculate_overall_verdict, hp]

/-- C10 witness: a correlation result with risk level HIGH. -/
theorem analyzer_suspicious_branch_unreachable_witness :
    ((analyze_correlation ⟨some false, some 0⟩ ⟨some true, some (19/20)⟩
        ⟨some false, some 0⟩ none).prokyc_signature_detected = true ↔
      ((analyze_correlation ⟨some false, some 0⟩ ⟨some true, some (19/20)⟩
        ⟨some false, some 0⟩ none).risk_level = "HIGH" ∨
       (analyze_correlation ⟨some false, some 0⟩ ⟨some true, some (19/20)⟩
        ⟨some false, some 0⟩ none).risk_level = "CRITICAL")) ∧
    ((calculate_overall_verdict ⟨none, none⟩ ⟨none, none⟩ ⟨none, none⟩
        ⟨some (analyze_correlation ⟨some false, some 0⟩
            ⟨some true, some (19/20)⟩ ⟨some false, some 0⟩
            none).prokyc_signature_detected,
         some (analyze_correlation ⟨some false, some 0⟩
            ⟨some true, some (19/20)⟩ ⟨some false, some 0⟩
            none).correlation_score,
         some (analyze_correlation ⟨some false, some 0⟩
            ⟨some true, some (19/20)⟩ ⟨some false, some 0⟩
            none).risk_level⟩).verdict = "FAIL" ∧
     (calculate_overall_verdict ⟨none, none⟩ ⟨none, none⟩ ⟨none, none⟩
        ⟨some (analyze_correlation ⟨some false, some 0⟩
            ⟨some true, some (19/20)⟩ ⟨some false, some 0⟩
            none).prokyc_signature_detected,
         some (analyze_correlation ⟨some false, some 0⟩
            ⟨some true, some (19/20)⟩ ⟨some false, some 0⟩
            none).correlation_score,
         some (analyze_correlation ⟨some false, some 0⟩
            ⟨some true, some (19/20)⟩ ⟨some false, some 0⟩
            none).risk_level⟩).reason = "ProKYC signature detected") := by
  have hraw : rawCorrelationScore ⟨some false, some 0⟩
      ⟨some true, some (19/20)⟩ ⟨some false, some 0⟩ none = 1/2 := by
    norm_num [rawCorrelationScore, min_def]
  have hrisk : (analyze_correlation ⟨some false, some 0⟩
      ⟨some true, some (19/20)⟩ ⟨some false, some 0⟩ none).risk_level =
      "HIGH" := by
    simp only [analyze_correlation, hraw]
    norm_num
  have h := analyzer_suspicious_branch_unreachable ⟨some false, some 0⟩
    ⟨some true, some (19/20)⟩ ⟨some false, some 0⟩ none
    ⟨none, none⟩ ⟨none, none⟩ ⟨none, none⟩
  exact ⟨h.1, h.2 (Or.inl hrisk)⟩

/-! ## C6 -/

/-- C6: when any required classifier result is missing or degraded to an
ERROR shape (absent keys, confidence 0.0), `calculate_overall_verdict` never
returns PASS: the verdict is FAIL or SUSPICIOUS. -/
theorem verdict_missing_or_error_never_pass (d : DeepfakeDict)
    (f : FaceMatchDict) (doc : DocumentDict) (c : CorrelationDict)
    (h : d.is_real = none ∨ d.confidence.getD 0 = 0 ∨
         f.«match» = none ∨ f.similarity.getD 0 = 0 ∨
         doc.is_genuine = none ∨ doc.confidence.getD 0 = 0) :
    (calculate_overall_verdict d f doc c).verdict = "FAIL" ∨
    (calculate_overall_verdict d f doc c).verdict = "SUSPICIOUS" := by
  simp only [calculate_overall_verdict]
  split_ifs with h1 h2 h3 h4 h5 h6 h7
  all_goals try (left; rfl)
  all_goals try (right; rfl)
  exfalso
  push_neg at h6
  rcases h7 with ⟨hv, hdg, hfm⟩
  rcases h with hh | hh | hh | hh | hh | hh
  · rw [hh] at hv; simp at hv
  · rw [hh] at h6; linarith [h6.1]
  · rw [hh] at hfm; simp at hfm
  · rw [hh] at h6; linarith [h6.2.2]
  · rw [hh] at hdg; simp at hdg
  · rw [hh] at h6; linarith [h6.2.1]

/-- C6 witness: missing deepfake result, everything else positive. -/
theorem verdict_missing_or_error_never_pass_witness :
    (calculate_overall_verdict ⟨none, none⟩ ⟨some true, some (19/20)⟩
        ⟨some true, some (19/20)⟩ ⟨none, none, none⟩).verdict = "FAIL" ∨
    (calculate_overall_verdict ⟨none, none⟩ ⟨some true, some (19/20)⟩
        ⟨some true, some (19/20)⟩ ⟨none, none, none⟩).verdict = "SUSPICIOUS" :=
  verdict_missing_or_error_never_pass ⟨none, none⟩ ⟨some true, some (19/20)⟩
    ⟨some true, some (19/20)⟩ ⟨none, none, none⟩ (Or.inl rfl)

/-! ## C4 -/

/-- C4 counterexample: with 4 stored attempts at the current instant, the
source counts 4 recent attempts (below the threshold of 5, score 0), while
the spec's append-first contract would count 5 and flag
`EXCESSIVE_ATTEMPTS_HOURLY` (+30): the current attempt is *not* included in
the counts the source uses. -/
theorem check_attempt_frequency_spec_counterexample :
    (check_attempt_frequency 0 [0, 0, 0, 0]).1 = 0 ∧
    (recordAndCountSpec 0 [0, 0, 0, 0]).1 = 30 ∧
    check_attempt_frequency 0 [0, 0, 0, 0] ≠ recordAndCountSpec 0 [0, 0, 0, 0] := by
  have h1 : (check_attempt_frequency 0 [0, 0, 0, 0]).1 = 0 := by
    norm_num [check_attempt_frequency]
  have h2 : (recordAndCountSpec 0 [0, 0, 0, 0]).1 = 30 := by
    norm_num [recordAndCountSpec]
  refine ⟨h1, h2, fun heq => ?_⟩
  have := congrArg Prod.fst heq
  rw [h1, h2] at this
  exact absurd this (by norm_num)

/-- C4 (amended): the operation computes the 1-hour and 24-hour counts used
for the EXCESSIVE_ATTEMPTS thresholds over the stored list *before* the
current timestamp is appended (the current attempt is excluded from both
counts); only afterwards is the current timestamp appended and the appended
list pruned to the 24-hour window and stored back. -/
theorem check_attempt_frequency_amended (now : ℚ) (attempts : List ℚ) :
    (check_attempt_frequency now attempts).2.2 =
      (attempts ++ [now]).filter (fun a => now - a < 86400) ∧
    ("EXCESSIVE_ATTEMPTS_HOURLY" ∈ (check_attempt_frequency now attempts).2.1 ↔
      5 ≤ (attempts.filter fun a => now - a < 3600).length) ∧
    ("EXCESSIVE_ATTEMPTS_DAILY" ∈ (check_attempt_frequency now attempts).2.1 ↔
      20 ≤ (attempts.filter fun a => now - a < 86400).length) ∧
    (check_attempt_frequency now attempts).1 =
      (if 5 ≤ (attempts.filter fun a => now - a < 3600).length then 30 else 0) +
      (if 20 ≤ (attempts.filter fun a => now - a < 86400).length then 40 else 0) := by
  refine ⟨rfl, ?_, ?_, rfl⟩ <;>
    · simp only [check_attempt_frequency]
      split_ifs <;> simp_all

/-! ## C7 -/

/-- C7 counterexample: `_check_verification_quality` on an empty
`verification_data` dict does not contribute zero; it treats the missing
`face_match` and `liveness` as failed checks, contributing 30 + 40 = 70. -/
theorem check_verification_quality_empty_counterexample :
    (check_verification_quality ⟨none, none⟩).1 = 70 ∧ (70 : ℤ) ≠ 0 := by
  constructor
  · simp [check_verification_quality]; norm_num
  · norm_num

/-- C7 (amended): both entry points are total on partial/missing inputs and
always return well-formed results (risk score in `[0,100]`, correlation
score in `[0,1]`); a GAN-fingerprint failure degrades that term to zero
(`analyze_correlation` with a failed step equals the call with a returned
correlation of 0); the device-signal sub-check contributes zero for an empty
dict; but `_check_verification_quality` treats a missing `face_match` or
`liveness` as a *failed* check contributing 30 and 40 (not zero). -/
theorem graceful_degradation_amended :
    (∀ (d : DeepfakeDict) (f : FaceMatchDict) (doc : DocumentDict),
      analyze_correlation d f doc none = analyze_correlation d f doc (some 0)) ∧
    check_device_signals ⟨false, false, false, false, "", ""⟩ = (0, []) ∧
    (check_verification_quality ⟨none, none⟩ =
      (70, ["FACE_MATCH_FAILED", "LIVENESS_FAILED"])) ∧
    (∀ (user_id : String) (device_info : DeviceInfo)
        (verification_data : VerificationData) (blacklist : List String)
        (attempts : List ℚ) (now : ℚ) (hour : ℕ),
      0 ≤ (calculate_risk_score user_id device_info verification_data
          blacklist attempts now hour).1.risk_score ∧
      (calculate_risk_score user_id device_info verification_data
          blacklist attempts now hour).1.risk_score ≤ 100) ∧
    (∀ (d : DeepfakeDict) (f : FaceMatchDict) (doc : DocumentDict)
        (gan : Option ℚ), (∀ g ∈ gan, 0 ≤ g) →
      0 ≤ (analyze_correlation d f doc gan).correlation_score ∧
      (analyze_correlation d f doc gan).correlation_score ≤ 1) := by
  refine ⟨fun d f doc => ?_, by norm_num [check_device_signals],
    by (simp [check_verification_quality]; norm_num),
    fun u di vd bl at' now h => calculate_risk_score_bounds u di vd bl at' now h,
    fun d f doc gan hg => ?_⟩
  · simp only [analyze_correlation, rawCorrelationScore]
    norm_num
  · constructor
    · rw [analyze_correlation_score_eq]
      exact pyRound4_nonneg _ (rawCorrelationScore_nonneg d f doc gan hg)
    · rw [analyze_correlation_score_eq]
      exact pyRound4_le_one _ (rawCorrelationScore_le_one d f doc gan)

/-- C7 witness. -/
theorem graceful_degradation_amended_witness :
    (analyze_correlation ⟨none, none⟩ ⟨none, none⟩ ⟨none, none⟩ none =
      analyze_correlation ⟨none, none⟩ ⟨none, none⟩ ⟨none, none⟩ (some 0)) ∧
    (0 ≤ (analyze_correlation ⟨none, none⟩ ⟨none, none⟩ ⟨none, none⟩
        (some (1/2))).correlation_score ∧
      (analyze_correlation ⟨none, none⟩ ⟨none, none⟩ ⟨none, none⟩
        (some (1/2))).correlation_score ≤ 1) :=
  ⟨graceful_degradation_amended.1 ⟨none, none⟩ ⟨none, none⟩ ⟨none, none⟩,
   graceful_degradation_amended.2.2.2.2 ⟨none, none⟩ ⟨none, none⟩ ⟨none, none⟩
    (some (1/2)) (fun g hg => by
      rw [Option.mem_def, Option.some_inj] at hg
      rw [← hg]
      norm_num)⟩

/-! ## C5 -/

/-- C5 counterexample: a fraud result with risk level MEDIUM (score 40, from
VPN + emulator signals, no critical flags) and all other components perfect
gives an overall weighted score of 92 (≥ 75) with fraud risk neither HIGH nor
CRITICAL, yet `_make_decision` returns REVIEW, not PASS: the code also
withholds PASS for MEDIUM fraud risk. -/
theorem weighted_mode_pass_counterexample :
    (calculate_risk_score "user-1" ⟨true, true, false, false, "d", "ip"⟩
        ⟨some ⟨some true, some 1, some 0⟩, some ⟨some true, some 1⟩⟩
        [] [] 0 12).1.risk_level = "MEDIUM" ∧
    (calculate_risk_score "user-1" ⟨true, true, false, false, "d", "ip"⟩
        ⟨some ⟨some true, some 1, some 0⟩, some ⟨some true, some 1⟩⟩
        [] [] 0 12).1.risk_score = 40 ∧
    (calculate_risk_score "user-1" ⟨true, true, false, false, "d", "ip"⟩
        ⟨some ⟨some true, some 1, some 0⟩, some ⟨some true, some 1⟩⟩
        [] [] 0 12).1.flags = ["VPN_DETECTED", "EMULATOR_DETECTED"] ∧
    calculate_overall_score ⟨some 100⟩ ⟨some true, some 1⟩ ⟨some true, some 1⟩
      ⟨some 40, some "MEDIUM"⟩ = 92 ∧
    (75 : ℚ) ≤ 92 ∧
    ¬(some "MEDIUM" = some ("HIGH" : String) ∨
      some "MEDIUM" = some ("CRITICAL" : String)) ∧
    (make_decision 92 ⟨some 40, some "MEDIUM"⟩
      ["VPN_DETECTED", "EMULATOR_DETECTED"]).1 = "REVIEW" ∧
    ("REVIEW" : String) ≠ "PASS" := by
  refine ⟨?_, ?_, ?_, ?_, by norm_num, by simp, ?_, by simp⟩
  · simp [calculate_risk_score, check_attempt_frequency, check_time_anomaly,
      check_device_signals, check_verification_quality, check_blacklist,
      hash_device]
    norm_num
  · simp [calculate_risk_score, check_attempt_frequency, check_time_anomaly,
      check_device_signals, check_verification_quality, check_blacklist,
      hash_device]
    norm_num [min_def]
  · simp [calculate_risk_score, check_attempt_frequency, check_time_anomaly,
      check_device_signals, check_verification_quality, check_blacklist,
      hash_device]
    norm_num
  · norm_num [calculate_overall_score]
  · simp [make_decision, critical_flags]
    norm_num

/-- C5 (amended): the weighted overall score follows the claimed formula,
but the decision is: FAIL iff a critical flag is present, or the fraud risk
level is CRITICAL, or the overall score is below 40; PASS iff no critical
flag, fraud risk level not CRITICAL, overall ≥ 75, and fraud risk level
neither HIGH nor MEDIUM (a MEDIUM fraud risk yields REVIEW, not PASS);
REVIEW in every other case. -/
theorem weighted_mode_amended :
    (∀ (doc_result : DocResultDict) (face_result : FaceMatchDict)
        (liveness_result : LivenessDict) (fraud_result : FraudDict),
      calculate_overall_score doc_result face_result liveness_result
          fraud_result =
        (15/100) * doc_result.quality_score.getD 0 +
        (35/100) * (if face_result.«match» = some true then
          face_result.similarity.getD 0 * 100 else 0) +
        (30/100) * (if liveness_result.is_live = some true then
          liveness_result.score.getD (1/2) * 100 else 0) +
        (20/100) * (100 - fraud_result.risk_score.getD 50)) ∧
    (∀ (overall_score : ℚ) (fraud_result : FraudDict) (flags : List String),
      ((make_decision overall_score fraud_result flags).1 = "FAIL" ↔
        ((critical_flags.any fun fl => flags.contains fl) = true ∨
         fraud_result.risk_level = some "CRITICAL" ∨ overall_score < 40)) ∧
      ((make_decision overall_score fraud_result flags).1 = "PASS" ↔
        (¬(critical_flags.any fun fl => flags.contains fl) = true ∧
         ¬fraud_result.risk_level = some "CRITICAL" ∧ 75 ≤ overall_score ∧
         ¬(fraud_result.risk_level = some "HIGH" ∨
           fraud_result.risk_level = some "MEDIUM"))) ∧
      ((make_decision overall_score fraud_result flags).1 = "REVIEW" ↔
        (¬((critical_flags.any fun fl => flags.contains fl) = true ∨
           fraud_result.risk_level = some "CRITICAL" ∨ overall_score < 40) ∧
         ¬(¬(critical_flags.any fun fl => flags.contains fl) = true ∧
           ¬fraud_result.risk_level = some "CRITICAL" ∧ 75 ≤ overall_score ∧
           ¬(fraud_result.risk_level = some "HIGH" ∨
             fraud_result.risk_level = some "MEDIUM"))))) := by
  constructor
  · intro doc_result face_result liveness_result fraud_result
    simp only [calculate_overall_score]
    ring
  · intro overall_score fraud_result flags
    simp only [make_decision]
    split_ifs with h1 h2 h3 h4 h5 <;>
      refine ⟨?_, ?_, ?_⟩ <;> simp_all <;> try tauto
    all_goals linarith

/-! ## C8 -/

lemma consume_bounds (tb : TokenBucket) (n now : ℚ) (hn : 0 ≤ n)
    (hr : 0 ≤ tb.refill_rate) (hle : tb.last_refill ≤ now)
    (h0 : 0 ≤ tb.tokens) (hc : tb.tokens ≤ tb.capacity) :
    0 ≤ (tb.consume n now).2.tokens ∧ (tb.consume n now).2.tokens ≤ tb.capacity := by
  have he : 0 ≤ (now - tb.last_refill) * tb.refill_rate :=
    mul_nonneg (by linarith) hr
  have hm0 : 0 ≤ min tb.capacity (tb.tokens + (now - tb.last_refill) * tb.refill_rate) :=
    le_min (le_trans h0 hc) (by linarith)
  have hm1 : min tb.capacity (tb.tokens + (now - tb.last_refill) * tb.refill_rate) ≤
      tb.capacity := min_le_left _ _
  simp only [TokenBucket.consume]
  split_ifs with hge
  · exact ⟨by dsimp only; linarith, by dsimp only; linarith⟩
  · exact ⟨hm0, hm1⟩

lemma consume_noelapse_tokens (tb : TokenBucket) (n : ℚ) (hn : 0 ≤ n)
    (hc : tb.tokens ≤ tb.capacity) :
    (tb.consume n tb.last_refill).2.tokens ≤ tb.tokens ∧
    (0 ≤ tb.tokens → 0 ≤ (tb.consume n tb.last_refill).2.tokens) := by
  have hmin : min tb.capacity (tb.tokens +
      (tb.last_refill - tb.last_refill) * tb.refill_rate) = tb.tokens := by
    rw [sub_self, zero_mul, add_zero]
    exact min_eq_right hc
  simp only [TokenBucket.consume, hmin]
  split_ifs with hge
  · exact ⟨by dsimp only; linarith, fun _ => by dsimp only; linarith⟩
  · exact ⟨le_refl _, fun h => h⟩

lemma consume_state_fields (tb : TokenBucket) (n now : ℚ) :
    (tb.consume n now).2.capacity = tb.capacity ∧
    (tb.consume n now).2.last_refill = now := by
  simp only [TokenBucket.consume]
  split_ifs <;> exact ⟨rfl, rfl⟩

lemma consumeSeq_invariant (now : ℚ) (tb : TokenBucket) (k : ℕ)
    (hlr : tb.last_refill = now) (h0 : 0 ≤ tb.tokens)
    (hc : tb.tokens ≤ tb.capacity) :
    (consumeSeq now tb k).last_refill = now ∧
    0 ≤ (consumeSeq now tb k).tokens ∧
    (consumeSeq now tb k).tokens ≤ (consumeSeq now tb k).capacity ∧
    (consumeSeq now tb k).capacity = tb.capacity := by
  induction k with
  | zero => exact ⟨hlr, h0, hc, rfl⟩
  | succ k ih =>
    obtain ⟨ih1, ih2, ih3, ih4⟩ := ih
    have hf := consume_state_fields (consumeSeq now tb k) 1 now
    have hne := consume_noelapse_tokens (consumeSeq now tb k) 1 (by norm_num) ih3
    rw [ih1] at hne
    refine ⟨hf.2, hne.2 ih2, ?_, ?_⟩
    · show ((consumeSeq now tb k).consume 1 now).2.tokens ≤
        ((consumeSeq now tb k).consume 1 now).2.capacity
      rw [hf.1]
      exact le_trans hne.1 ih3
    · show ((consumeSeq now tb k).consume 1 now).2.capacity = tb.capacity
      rw [hf.1, ih4]

/-- C8: `TokenBucket.consume` preserves `0 ≤ tokens ≤ capacity` (given a
monotone clock and nonnegative refill rate); the refill step sets the token
count to `min(capacity, tokens_before + elapsed*refillRate)` before the
admit decision (visible in both the admitted and the rejected outcome); and
for any sequence of consume(1) calls with no time passing, the token count
is non-increasing and never negative. -/
theorem token_bucket_invariant :
    (∀ (tb : TokenBucket) (n now : ℚ), 0 ≤ n → 0 ≤ tb.refill_rate →
      tb.last_refill ≤ now → 0 ≤ tb.tokens → tb.tokens ≤ tb.capacity →
      (0 ≤ (tb.consume n now).2.tokens ∧
       (tb.consume n now).2.tokens ≤ tb.capacity ∧
       ((tb.consume n now).1 = true →
         (tb.consume n now).2.tokens =
           min tb.capacity (tb.tokens + (now - tb.last_refill) * tb.refill_rate)
             - n) ∧
       ((tb.consume n now).1 = false →
         (tb.consume n now).2.tokens =
           min tb.capacity
             (tb.tokens + (now - tb.last_refill) * tb.refill_rate)))) ∧
    (∀ (tb : TokenBucket) (now : ℚ) (k : ℕ), tb.last_refill = now →
      0 ≤ tb.tokens → tb.tokens ≤ tb.capacity →
      (0 ≤ (consumeSeq now tb k).tokens ∧
       (consumeSeq now tb (k + 1)).tokens ≤ (consumeSeq now tb k).tokens)) := by
  constructor
  · intro tb n now hn hr hle h0 hc
    have hb := consume_bounds tb n now hn hr hle h0 hc
    refine ⟨hb.1, hb.2, ?_, ?_⟩
    · intro ht
      simp only [TokenBucket.consume] at ht ⊢
      split_ifs at ht ⊢ with hge
      all_goals rfl
    · intro hf
      simp only [TokenBucket.consume] at hf ⊢
      split_ifs at hf ⊢ with hge
      all_goals rfl
  · intro tb now k hlr h0 hc
    have inv := consumeSeq_invariant now tb k hlr h0 hc
    have hne := consume_noelapse_tokens (consumeSeq now tb k) 1 (by norm_num)
      inv.2.2.1
    rw [inv.1] at hne
    exact ⟨inv.2.1, hne.1⟩

/-- C8 witness. -/
theorem token_bucket_invariant_witness :
    (0 ≤ ((⟨60, 1, 30, 0⟩ : TokenBucket).consume 1 5).2.tokens ∧
      ((⟨60, 1, 30, 0⟩ : TokenBucket).consume 1 5).2.tokens ≤
        (⟨60, 1, 30, 0⟩ : TokenBucket).capacity) ∧
    (0 ≤ (consumeSeq 7 ⟨60, 1, 2, 7⟩ 1).tokens ∧
      (consumeSeq 7 ⟨60, 1, 2, 7⟩ 2).tokens ≤
        (consumeSeq 7 ⟨60, 1, 2, 7⟩ 1).tokens) := by
  have h1 := token_bucket_invariant.1 ⟨60, 1, 30, 0⟩ 1 5 (by norm_num)
    (by norm_num) (by norm_num) (by norm_num) (by norm_num)
  have h2 := token_bucket_invariant.2 ⟨60, 1, 2, 7⟩ 7 1 rfl (by norm_num)
    (by norm_num)
  exact ⟨⟨h1.1, h1.2.1⟩, h2⟩

/-! ## C9 -/

lemma process_requests_append (tb : TokenBucket) (l1 l2 : List ℚ) :
    process_requests tb (l1 ++ l2) =
      ((process_requests tb l1).1 ++
        (process_requests (process_requests tb l1).2 l2).1,
       (process_requests (process_requests tb l1).2 l2).2) := by
  induction l1 generalizing tb with
  | nil => simp [process_requests]
  | cons t rest ih => simp [process_requests, ih]

lemma process_replicate (t0 : ℚ) (k : ℕ) (x : ℚ) (hx1 : (k : ℚ) ≤ x)
    (hx2 : x ≤ 60) :
    process_requests ⟨60, 1, x, t0⟩ (List.replicate k t0) =
      (List.replicate k true, ⟨60, 1, x - k, t0⟩) := by
  induction k generalizing x with
  | zero => simp [process_requests]
  | succ k ih =>
    rw [List.replicate_succ]
    simp only [process_requests]
    have h1x : (1 : ℚ) ≤ x := by
      have : ((k : ℚ) + 1) ≤ x := by push_cast at hx1; linarith
      have hk : (0 : ℚ) ≤ (k : ℚ) := by positivity
      linarith
    have hcons : (⟨60, 1, x, t0⟩ : TokenBucket).consume 1 t0 =
        (true, ⟨60, 1, x - 1, t0⟩) := by
      simp only [TokenBucket.consume, sub_self, zero_mul, mul_one, add_zero]
      rw [min_eq_right hx2, if_pos h1x]
    rw [hcons]
    have h2 := ih (x - 1) (by push_cast at hx1 ⊢; linarith) (by linarith)
    rw [h2]
    have hx3 : x - 1 - (k : ℚ) = x - ((k : ℕ) + 1 : ℕ) := by push_cast; ring
    rw [hx3]
    rfl

/-- C9 counterexample: 61 requests to a fresh bucket of capacity 60 and
refill rate 1/s, all inside one 60-second window (60 requests at t = 0, the
61st at t = 1): the refill accrued during the window admits the 61st
request, so `admit()` returns true, contradicting the claim that the 61st
request within the window is rejected. -/
theorem rate_limiter_61st_within_window_counterexample :
    (List.replicate 60 (0 : ℚ) ++ [1]).length = 61 ∧
    ((0 : ℚ) ≤ 1 ∧ (1 : ℚ) - 0 < 60) ∧
    (process_requests (mkBucket 60 1 0)
      (List.replicate 60 (0 : ℚ) ++ [1])).1.getLast? = some true := by
  refine ⟨by simp, by norm_num, ?_⟩
  · rw [process_requests_append]
    have h60 : process_requests (mkBucket 60 1 0) (List.replicate 60 (0 : ℚ)) =
        (List.replicate 60 true, ⟨60, 1, 0, 0⟩) := by
      have h := process_replicate 0 60 60 (by norm_num) (by norm_num)
      norm_num at h
      exact h
    rw [h60]
    have hlast : process_requests (⟨60, 1, 0, 0⟩ : TokenBucket) [1] =
        ([true], ⟨60, 1, 0, 1⟩) := by
      simp only [process_requests, TokenBucket.consume]
      norm_num
    rw [hlast]
    simp

/-- C9 (amended): when no time passes between the requests (all 61 arrive at
the same instant, so no refill accrues), the 61st request from a fresh
capacity-60 bucket is rejected; the rejection's "retry after" hint,
`60 - int(tokens)`, then equals 60, which is strictly greater than 0. -/
theorem rate_limiter_same_instant_61st_rejected (t0 : ℚ) :
    (process_requests (mkBucket 60 1 t0) (List.replicate 61 t0)).1 =
      List.replicate 60 true ++ [false] ∧
    (check_rate_limit (process_requests (mkBucket 60 1 t0)
        (List.replicate 60 t0)).2 t0).1 = false ∧
    (check_rate_limit (process_requests (mkBucket 60 1 t0)
        (List.replicate 60 t0)).2 t0).2.1 = 60 ∧
    (0 : ℤ) < 60 := by
  have h60 : process_requests (mkBucket 60 1 t0) (List.replicate 60 t0) =
      (List.replicate 60 true, ⟨60, 1, 0, t0⟩) := by
    have h := process_replicate t0 60 60 (by norm_num) (by norm_num)
    norm_num at h
    exact h
  have hrej : (⟨60, 1, 0, t0⟩ : TokenBucket).consume 1 t0 =
      (false, ⟨60, 1, 0, t0⟩) := by
    simp only [TokenBucket.consume, sub_self, zero_mul, mul_one, add_zero]
    rw [min_eq_right (by norm_num : (0 : ℚ) ≤ 60),
      if_neg (by norm_num : ¬ ((0 : ℚ) ≥ 1))]
  refine ⟨?_, ?_, ?_, by norm_num⟩
  · rw [show (61 : ℕ) = 60 + 1 from rfl, List.replicate_succ',
      process_requests_append, h60]
    simp [process_requests, hrej]
  · rw [h60]
    simp [check_rate_limit, hrej]
  · rw [h60]
    simp [check_rate_limit, hrej, pyInt]
